import Mathlib

/-!
Shallow embedding of the tui-monitor repository (src/main.py emitter loop and
src/test_tobias.py Logger) in Lean 4.

Numeric values are modelled as rationals (ℚ).  Python floats are IEEE doubles;
for every concrete input appearing below, the decimal renderings of the double
and of the rational coincide, and the loop/state logic is independent of the
numeric representation.  Python's `%w.pf` formatting rounds half-to-even, pads
on the left with spaces up to the field width, and renders the fractional part
with exactly `p` digits; `decRound`, `fixedRepr` and `pyFloat` below mirror
that.  Python's `f"{n:02d}"` zero-padding is mirrored by `padLeft '0' 2`.
-/

namespace TuiMonitor

/-- Decimal digit as a character (`0 ≤ d ≤ 9` in every use). -/
def digitChar (d : Nat) : Char := Char.ofNat (48 + d)

/-- Little-endian decimal digits of `n`, with fuel (`fuel ≥ n` in every use). -/
def natDigsAux : Nat → Nat → List Char
  | 0, _ => []
  | _ + 1, 0 => []
  | fuel + 1, n + 1 => digitChar ((n + 1) % 10) :: natDigsAux fuel ((n + 1) / 10)

/-- Standard decimal rendering of a natural number (Python `%d` on a `Nat`). -/
def natRepr (n : Nat) : String :=
  if n = 0 then "0" else String.mk (natDigsAux n n).reverse

/-- Left-pad `s` with character `c` up to width `w` (no-op when `s` is long enough). -/
def padLeft (c : Char) (w : Nat) (s : String) : String :=
  String.mk (List.replicate (w - s.length) c) ++ s

/-- Floor of a rational as an integer (`⌊num/den⌋` via flooring integer division). -/
def qfloor (q : ℚ) : ℤ := q.num.fdiv q.den

/-- Round a rational to the nearest integer, ties to even (Python float formatting
rounds half-to-even). -/
def decRound (q : ℚ) : ℤ :=
  let f := qfloor q
  let r := q - (f : ℚ)
  if r < 1/2 then f
  else if 1/2 < r then f + 1
  else if f % 2 = 0 then f else f + 1

/-- Render the scaled integer `n` (the value times `10 ^ prec`) as a decimal
string with a decimal point before the last `prec` digits. -/
def renderScaled (prec : Nat) (n : ℤ) : String :=
  let a := n.natAbs
  let p := (10 : Nat) ^ prec
  (if n < 0 then "-" else "") ++ natRepr (a / p) ++ "." ++ padLeft '0' prec (natRepr (a % p))

/-- Render `q` in fixed-point notation with exactly `prec` fractional digits
(the body of Python `%.pf`), `prec ≥ 1` in every use. -/
def fixedRepr (prec : Nat) (q : ℚ) : String :=
  renderScaled prec (decRound (q * (10 : ℚ) ^ prec))

/-- Python `"%w.pf" % q`: fixed-point rendering left-padded with spaces to width `w`. -/
def pyFloat (w prec : Nat) (q : ℚ) : String := padLeft ' ' w (fixedRepr prec q)

/-! ## Data model (src/main.py) -/

/-- A sensor snapshot: `bmp.raw_values` unpacked plus the derived altitude
(src/main.py lines 102-110). -/
structure TelemetryReading where
  temperature : ℚ
  pressure : ℚ
  humidity : ℚ
  altitude : ℚ

/-- `baseline = 1032.0`, the day's sea-level pressure (src/main.py line 92). -/
def baseline : ℚ := 1032.0

/-- Build the cycle's reading from the raw sensor values: altitude is derived as
`(baseline - sensor_pressure)*8.3` (src/main.py lines 104-110). -/
def mkReading (t p h : ℚ) : TelemetryReading :=
  { temperature := t, pressure := p, humidity := h, altitude := (baseline - p) * 8.3 }

/-- The RSSI value substituted into the payload:
`0 if last_rssi is None else last_rssi` (src/main.py line 112). -/
def rssiFieldValue : Option ℚ → ℚ
  | none => 0
  | some v => v

/-- The payload built on src/main.py line 112:
`" %d  %3.1f  %2.2f  %4.2f  %2.2f  %3.6f" % (counter, rssi, temp, press, hum, alt)`. -/
def encode (counter : Nat) (last_rssi : Option ℚ) (r : TelemetryReading) : String :=
  " " ++ natRepr counter
    ++ "  " ++ pyFloat 3 1 (rssiFieldValue last_rssi)
    ++ "  " ++ pyFloat 2 2 r.temperature
    ++ "  " ++ pyFloat 4 2 r.pressure
    ++ "  " ++ pyFloat 2 2 r.humidity
    ++ "  " ++ pyFloat 3 6 r.altitude

/-- Join a list of fields with a separator between consecutive fields. -/
def sepJoin (sep : String) : List String → String
  | [] => ""
  | [s] => s
  | s :: t :: rest => s ++ sep ++ sepJoin sep (t :: rest)

/-- The payload layout as the spec describes it (§6, amended to the precisions
the code uses): a leading space, then the six fields — sequence as an integer,
RSSI to one decimal, temperature to two decimals, pressure to two decimals,
humidity to two decimals, altitude to six decimals — separated by exactly two
spaces. -/
def specLayout (counter : Nat) (last_rssi : Option ℚ) (r : TelemetryReading) : String :=
  " " ++ sepJoin "  " [natRepr counter, fixedRepr 1 (rssiFieldValue last_rssi),
    fixedRepr 2 r.temperature, fixedRepr 2 r.pressure, fixedRepr 2 r.humidity,
    fixedRepr 6 r.altitude]

/-! ## Delivery and the main loop (src/main.py lines 62-130)

`rfm.send_with_ack` lives in the external `rfm69` driver, not in this
repository's sources; its observable result is an optional acknowledgment
carrying an RSSI.  A delivery cycle's interaction with the radio is therefore
modelled as a `DeliveryOutcome`, and the retry loop inside `deliver` is
modelled from the spec (see `deliverGo`). -/

/-- Outcome of one delivery cycle: an acknowledgment carrying the RSSI read
from `rfm.rssi`, or no acknowledgment within the retry budget. -/
inductive DeliveryOutcome where
  | Acknowledged (rssi : ℚ)
  | Exhausted

/-- The loop state of src/main.py: `counter` (line 62) and `last_rssi` (line 64). -/
structure LoopState where
  counter : Nat
  last_rssi : Option ℚ

/-- Initial state: `counter = 1`, `last_rssi = None` (src/main.py lines 62-64). -/
def initState : LoopState := { counter := 1, last_rssi := none }

/-- The `last_rssi` update of src/main.py lines 118-126: on `ack`, store the
acknowledgment's RSSI; otherwise leave `last_rssi` untouched. -/
def updateLastRssi (prev : Option ℚ) : DeliveryOutcome → Option ℚ
  | .Acknowledged v => some v
  | .Exhausted => prev

/-- One iteration of the `while True` loop (src/main.py lines 98-130): build the
payload from the pre-delivery state, deliver it (outcome supplied by the radio
environment), update `last_rssi` per the outcome, increment `counter`. -/
def cycleStep (s : LoopState) (r : TelemetryReading) (out : DeliveryOutcome) :
    String × LoopState :=
  let msg := encode s.counter s.last_rssi r
  (msg, { counter := s.counter + 1, last_rssi := updateLastRssi s.last_rssi out })

/-- State after `n` complete cycles, given the per-cycle readings and delivery
outcomes of the environment. -/
def runLoop (rs : Nat → TelemetryReading) (outs : Nat → DeliveryOutcome) : Nat → LoopState
  | 0 => initState
  | n + 1 => (cycleStep (runLoop rs outs n) (rs n) (outs n)).2

/-- The payload transmitted during cycle `n` (0-based). -/
def msgAt (rs : Nat → TelemetryReading) (outs : Nat → DeliveryOutcome) (n : Nat) : String :=
  (cycleStep (runLoop rs outs n) (rs n) (outs n)).1

/-- Modelled from the spec: the retry loop inside the external
`rfm69.send_with_ack` (spec §4.2), which is not part of this repository's
sources.  `remaining` is `attempts_remaining`; each iteration transmits the
payload once (recorded in the returned trace), returns `Acknowledged` on the
first acknowledgment, decrements on timeout, and returns `Exhausted` when the
budget reaches zero.  `transport i` is the acknowledgment (with its RSSI)
observed for the `i`-th transmission, `none` on timeout. -/
def deliverGo (payload : String) (transport : Nat → Option ℚ) :
    Nat → Nat → List String × DeliveryOutcome
  | 0, _ => ([], .Exhausted)
  | remaining + 1, idx =>
    match transport idx with
    | some rssi => ([payload], .Acknowledged rssi)
    | none =>
      if remaining = 0 then ([payload], .Exhausted)
      else
        let rest := deliverGo payload transport remaining (idx + 1)
        (payload :: rest.1, rest.2)

/-- Modelled from the spec: `deliver(payload, max_retries, ack_timeout)`
(spec §4.2) with `attempts_remaining = max_retries + 1`.  Returns the list of
transmitted frames together with the outcome. -/
def deliver (maxRetries : Nat) (transport : Nat → Option ℚ) (payload : String) :
    List String × DeliveryOutcome :=
  deliverGo payload transport (maxRetries + 1) 0

/-! ## Configuration constants (src/main.py lines 19-24, 68-70, 130) -/

/-- Operational parameters of the emitter. -/
structure Config where
  frequency_mhz : ℚ
  ack_retries : Nat
  ack_wait : ℚ
  cycle_pause : ℚ
  node_id : Nat
  destination_id : Nat

/-- The constants of src/main.py: `FREQ = 433.1` (line 19), `NODE_ID = 120`
(line 22), `BASESTATION_ID = 100` (line 24), `rfm.ack_retries = 2` (line 68),
`rfm.ack_wait = 1.0` (line 70), `time.sleep(0.1)` (line 130). -/
def config : Config :=
  { frequency_mhz := 433.1
    ack_retries := 2
    ack_wait := 1.0
    cycle_pause := 0.1
    node_id := 120
    destination_id := 100 }

/-- A fixed reading used to instantiate environments in witnesses. -/
def wReading : TelemetryReading := ⟨0, 0, 0, 0⟩

/-- Environment whose every cycle reads `wReading`. -/
def wReadings : Nat → TelemetryReading := fun _ => wReading

/-- Environment whose every delivery is acknowledged with RSSI 7. -/
def wOutsAck : Nat → DeliveryOutcome := fun _ => .Acknowledged 7

/-- Environment whose every delivery exhausts its retries. -/
def wOutsNone : Nat → DeliveryOutcome := fun _ => .Exhausted

/-! ## Logger (src/test_tobias.py) -/

/-- `Logger.MAX_LOG_TYPE_LEN = 7` (src/test_tobias.py line 11). -/
def MAX_LOG_TYPE_LEN : Nat := 7

/-- The time components computed by `Logger._get_time_HH_MM_SS_mmm`
(src/test_tobias.py lines 77-95) from `current_ms = time.ticks_ms() + bias_ms`. -/
structure TimeParts where
  hours : Nat
  minutes : Nat
  seconds : Nat
  milliseconds : Nat

/-- The arithmetic of `Logger._get_time_HH_MM_SS_mmm` on `total_ms`. -/
def timeParts (total_ms : Nat) : TimeParts :=
  let total_seconds := total_ms / 1000
  { hours := total_seconds / 3600
    minutes := (total_seconds % 3600) / 60
    seconds := total_seconds % 60
    milliseconds := total_ms % 1000 }

/-- `Logger._get_time_HH_MM_SS_mmm(bias_ms)` (src/test_tobias.py lines 61-101):
`f"{hours:02d}:{minutes:02d}:{seconds:02d}.{milliseconds:03d}"` where the
components come from `ticks + bias` milliseconds. -/
def timeHMSmmm (ticks bias : Nat) : String :=
  let t := timeParts (ticks + bias)
  padLeft '0' 2 (natRepr t.hours) ++ ":" ++ padLeft '0' 2 (natRepr t.minutes)
    ++ ":" ++ padLeft '0' 2 (natRepr t.seconds) ++ "." ++ padLeft '0' 3 (natRepr t.milliseconds)

/-- Python `str.upper()`: character-wise upper-casing (ASCII scope). -/
def pyUpper (s : String) : String := String.mk (s.data.map Char.toUpper)

/-- Python `str.strip()`: drop leading and trailing whitespace. -/
def pyStrip (s : String) : String :=
  String.mk (((s.data.dropWhile Char.isWhitespace).reverse.dropWhile Char.isWhitespace).reverse)

/-- The padded type tag of `Logger._add_line` (src/test_tobias.py lines 131-133):
`type_string = f"[{line_type.upper().strip()}]"` followed by
`type_string += (MAX_LOG_TYPE_LEN - len(type_string) + 4) * " "` — a Python
`int * str` with a negative count yields the empty string, hence `Int.toNat`. -/
def typeTag (line_type : String) : String :=
  let t := "[" ++ pyStrip (pyUpper line_type) ++ "]"
  t ++ String.mk (List.replicate ((MAX_LOG_TYPE_LEN - (t.length : Int) + 4).toNat) ' ')

/-- The line written by `Logger._add_line(line_type, details, time_bias)`
(src/test_tobias.py lines 105-149), with the clock reading passed explicitly:
`f"[{actual_time}]  "` + padded type tag + `details.strip()`, written with a
trailing newline. -/
def addLine (ticks bias : Nat) (line_type details : String) : String :=
  "[" ++ timeHMSmmm ticks bias ++ "]  " ++ typeTag line_type ++ pyStrip details ++ "\n"

/-- The padding the claim describes for the log line's type tag:
`MAX_LOG_TYPE_LEN + 4` minus the length of `[<TYPE>]` spaces when that quantity
is positive, and empty otherwise. -/
def claimedPadding (len : Nat) : String :=
  if (len : Int) < MAX_LOG_TYPE_LEN + 4 then
    String.mk (List.replicate ((MAX_LOG_TYPE_LEN + 4 - (len : Int)).toNat) ' ')
  else ""

/-! ## Helper lemmas -/

/-- `decRound` is the identity on integers. -/
theorem decRound_intCast (n : ℤ) : decRound (n : ℚ) = n := by
  have hf : qfloor (n : ℚ) = n := by
    simp [qfloor, Rat.num_intCast, Rat.den_intCast, Int.fdiv_one]
  unfold decRound
  rw [hf]
  norm_num

/-- Evaluation rule for `fixedRepr` when the scaled value is exactly an integer. -/
theorem fixedRepr_eq_renderScaled (prec : Nat) (q : ℚ) (N : ℤ)
    (h : q * (10 : ℚ) ^ prec = (N : ℚ)) : fixedRepr prec q = renderScaled prec N := by
  rw [fixedRepr, h, decRound_intCast]

example : renderScaled 1 (-423) = "-42.3" := by decide
example : renderScaled 1 0 = "0.0" := by decide
example : fixedRepr 1 (-42.3 : ℚ) = "-42.3" := by
  rw [fixedRepr_eq_renderScaled 1 (-42.3 : ℚ) (-423) (by norm_num)]
  decide

theorem natDigsAux_ne_nil (fuel n : Nat) (hf : 1 ≤ fuel) (hn : 1 ≤ n) :
    natDigsAux fuel n ≠ [] := by
  match fuel, n with
  | f + 1, m + 1 => simp [natDigsAux]

theorem natRepr_length_pos (n : Nat) : 1 ≤ (natRepr n).length := by
  unfold natRepr
  split
  · decide
  · rename_i h
    have : natDigsAux n n ≠ [] := natDigsAux_ne_nil n n (by omega) (by omega)
    have hlen : 1 ≤ (natDigsAux n n).length := by
      cases hE : natDigsAux n n with
      | nil => exact absurd hE this
      | cons a as => simp
    simpa [String.length, List.length_reverse] using hlen

theorem strmk_data (l : List Char) : (String.mk l).data = l := rfl

theorem strmk_length (l : List Char) : (String.mk l).length = l.length := rfl

theorem str_ext {s t : String} (h : s.data = t.data) : s = t := by
  cases s
  cases t
  simp_all

theorem padLeft_length (c : Char) (w : Nat) (s : String) :
    (padLeft c w s).length = max w s.length := by
  simp only [padLeft, String.length_append, strmk_length, List.length_replicate]
  omega

theorem fixedRepr_length (prec : Nat) (q : ℚ) : prec + 2 ≤ (fixedRepr prec q).length := by
  unfold fixedRepr renderScaled
  simp only [String.length_append, padLeft_length]
  have h1 := natRepr_length_pos ((decRound (q * (10 : ℚ) ^ prec)).natAbs / 10 ^ prec)
  have h2 : ("." : String).length = 1 := by decide
  omega

theorem pyFloat_eq_fixedRepr (w prec : Nat) (q : ℚ) (h : w ≤ prec + 2) :
    pyFloat w prec q = fixedRepr prec q := by
  have hl : w ≤ (fixedRepr prec q).length := le_trans h (fixedRepr_length prec q)
  unfold pyFloat padLeft
  have h0 : w - (fixedRepr prec q).length = 0 := by omega
  rw [h0]
  apply str_ext
  simp [String.data_append, strmk_data]

theorem encode_eq_specLayout (c : Nat) (rssi : Option ℚ) (r : TelemetryReading) :
    encode c rssi r = specLayout c rssi r := by
  unfold encode specLayout
  simp only [sepJoin]
  rw [pyFloat_eq_fixedRepr 3 1 _ (by omega), pyFloat_eq_fixedRepr 2 2 r.temperature (by omega),
    pyFloat_eq_fixedRepr 4 2 _ (by omega), pyFloat_eq_fixedRepr 2 2 r.humidity (by omega),
    pyFloat_eq_fixedRepr 3 6 _ (by omega)]
  apply str_ext
  simp [String.data_append, List.append_assoc]

theorem encode_example_eval :
    encode 5 (some (-42.3)) ⟨23.5, 1013.25, 45.0, -9.375⟩ =
      " 5  -42.3  23.50  1013.25  45.00  -9.375000" := by
  simp only [encode, pyFloat, rssiFieldValue]
  rw [fixedRepr_eq_renderScaled 1 (-42.3) (-423) (by norm_num),
    fixedRepr_eq_renderScaled 2 23.5 2350 (by norm_num),
    fixedRepr_eq_renderScaled 2 1013.25 101325 (by norm_num),
    fixedRepr_eq_renderScaled 2 45.0 4500 (by norm_num),
    fixedRepr_eq_renderScaled 6 (-9.375) (-9375000) (by norm_num)]
  decide

/-! ## Claim theorems -/

/-- C1 (counterexample): the claim's concrete example is false on the code —
src/main.py line 112 formats temperature with `%2.2f` (two decimals), so the
encoded payload reads `23.50`, not `23.5`, and the claimed string differs. -/
theorem C1_example_false :
    encode 5 (some (-42.3)) ⟨23.5, 1013.25, 45.0, -9.375⟩ ≠
      " 5  -42.3  23.5  1013.25  45.00  -9.375000" := by
  rw [encode_example_eval]
  decide

/-- C1 (amended): for every sequence number, last-RSSI value and reading, the
encoded payload is a leading space followed by the six fields — sequence as
integer, RSSI to one decimal, temperature to two decimals, pressure to two
decimals, humidity to two decimals, altitude to six decimals — separated by
exactly two spaces; and `encode(5, Some(-42.3), {temp:23.5, pressure:1013.25,
humidity:45.0, altitude:-9.375})` equals
`" 5  -42.3  23.50  1013.25  45.00  -9.375000"`. -/
theorem C1_payload_layout :
    (∀ (c : Nat) (rssi : Option ℚ) (r : TelemetryReading),
      encode c rssi r = specLayout c rssi r) ∧
    encode 5 (some (-42.3)) ⟨23.5, 1013.25, 45.0, -9.375⟩ =
      " 5  -42.3  23.50  1013.25  45.00  -9.375000" :=
  ⟨encode_eq_specLayout, encode_example_eval⟩

/-- C5: when no RSSI has ever been observed (`last_rssi` is `None`), the encoded
payload renders the RSSI field as the literal text `0.0` (the number 0 formatted
to one decimal place), never a null or placeholder token. -/
theorem C5_rssi_absent_renders_zero (c : Nat) (r : TelemetryReading) :
    encode c none r =
      " " ++ natRepr c ++ "  " ++ "0.0" ++ "  " ++ pyFloat 2 2 r.temperature
        ++ "  " ++ pyFloat 4 2 r.pressure ++ "  " ++ pyFloat 2 2 r.humidity
        ++ "  " ++ pyFloat 3 6 r.altitude := by
  have h : pyFloat 3 1 (rssiFieldValue none) = "0.0" := by
    rw [pyFloat_eq_fixedRepr 3 1 _ (by omega),
      fixedRepr_eq_renderScaled 1 _ 0 (by norm_num [rssiFieldValue])]
    decide
  rw [encode, h]

/-- C7: for every sampled pressure value, the altitude field of the reading
equals `(baseline_pressure - pressure) * 8.3` (src/main.py line 110), with
`baseline = 1032` and `8.3 = 83/10`. -/
theorem C7_altitude_formula (t p h : ℚ) :
    (mkReading t p h).altitude = (1032 - p) * (83 / 10) := by
  unfold mkReading baseline
  norm_num

/-- C8: the program's operational constants equal the documented defaults —
frequency 433.1 MHz, retry count 2, acknowledgment timeout 1.0 s, inter-cycle
pause 0.1 s, local node id 120, destination id 100. -/
theorem C8_config_defaults :
    config.frequency_mhz = 4331 / 10 ∧ config.ack_retries = 2 ∧
    config.ack_wait = 1 ∧ config.cycle_pause = 1 / 10 ∧
    config.node_id = 120 ∧ config.destination_id = 100 := by
  refine ⟨?_, rfl, ?_, ?_, rfl, rfl⟩ <;> norm_num [config]

/-! ## Loop and delivery theorems -/

/-- C2: if cycle `n`'s delivery returns `Acknowledged rssi` then afterwards
`last_rssi` equals that RSSI, and if it returns `Exhausted` then `last_rssi` is
unchanged from its value before the cycle — updated if and only if an
acknowledgment was received, never cleared on failure. -/
theorem C2_last_rssi_update (rs : Nat → TelemetryReading) (outs : Nat → DeliveryOutcome)
    (n : Nat) :
    (∀ v : ℚ, outs n = .Acknowledged v → (runLoop rs outs (n + 1)).last_rssi = some v) ∧
    (outs n = .Exhausted → (runLoop rs outs (n + 1)).last_rssi = (runLoop rs outs n).last_rssi) := by
  constructor
  · intro v hv
    simp [runLoop, cycleStep, updateLastRssi, hv]
  · intro hv
    simp [runLoop, cycleStep, updateLastRssi, hv]

theorem C2_last_rssi_update_witness :
    (runLoop wReadings wOutsAck 1).last_rssi = some 7 ∧
    (runLoop wReadings wOutsNone 1).last_rssi = (runLoop wReadings wOutsNone 0).last_rssi :=
  ⟨(C2_last_rssi_update wReadings wOutsAck 0).1 7 rfl,
   (C2_last_rssi_update wReadings wOutsNone 0).2 rfl⟩

/-- C4: the sequence counter starts at 1 and increases by exactly 1 from each
cycle to the next, regardless of the delivery outcomes; after `n` cycles it
equals `n + 1`. -/
theorem C4_sequence_counter (rs : Nat → TelemetryReading) (outs : Nat → DeliveryOutcome) :
    (runLoop rs outs 0).counter = 1 ∧
    (∀ n, (runLoop rs outs (n + 1)).counter = (runLoop rs outs n).counter + 1) ∧
    (∀ n, (runLoop rs outs n).counter = n + 1) := by
  refine ⟨rfl, fun n => rfl, ?_⟩
  intro n
  induction n with
  | zero => rfl
  | succ k ih =>
    have hstep : (runLoop rs outs (k + 1)).counter = (runLoop rs outs k).counter + 1 := rfl
    rw [hstep, ih]

theorem runLoop_congr (rs : Nat → TelemetryReading) (outs outs' : Nat → DeliveryOutcome)
    (n : Nat) (h : ∀ m, m < n → outs m = outs' m) :
    runLoop rs outs n = runLoop rs outs' n := by
  induction n with
  | zero => rfl
  | succ k ih =>
    have hk : runLoop rs outs k = runLoop rs outs' k := ih fun m hm => h m (by omega)
    simp [runLoop, hk, h k (by omega)]

/-- C6: the RSSI embedded in cycle `n`'s payload is the link-quality state as it
was before that cycle's delivery: the payload equals the encoding of the
pre-delivery state, and the payload is unchanged under any change to the
delivery outcomes of cycle `n` itself (and later cycles). -/
theorem C6_rssi_one_cycle_lag :
    (∀ rs outs n, msgAt rs outs n =
      encode (runLoop rs outs n).counter (runLoop rs outs n).last_rssi (rs n)) ∧
    (∀ rs outs outs' n, (∀ m, m < n → outs m = outs' m) →
      msgAt rs outs n = msgAt rs outs' n) := by
  constructor
  · intro rs outs n
    rfl
  · intro rs outs outs' n h
    unfold msgAt
    rw [runLoop_congr rs outs outs' n h]
    rfl

theorem C6_rssi_one_cycle_lag_witness :
    msgAt wReadings wOutsNone 0 = msgAt wReadings wOutsAck 0 :=
  C6_rssi_one_cycle_lag.2 wReadings wOutsNone wOutsAck 0 fun m hm =>
    absurd hm (Nat.not_lt_zero m)

theorem deliverGo_trace (p : String) (t : Nat → Option ℚ) :
    ∀ rem idx, 1 ≤ rem →
      ∃ k, 1 ≤ k ∧ k ≤ rem ∧ (deliverGo p t rem idx).1 = List.replicate k p := by
  intro rem
  induction rem with
  | zero => intro idx h; omega
  | succ r ih =>
    intro idx _
    cases hE : t idx with
    | some v => exact ⟨1, by omega, by omega, by simp [deliverGo, hE]⟩
    | none =>
      by_cases hr : r = 0
      · subst hr
        exact ⟨1, by omega, by omega, by simp [deliverGo, hE]⟩
      · obtain ⟨k, hk1, hk2, hk3⟩ := ih (idx + 1) (by omega)
        refine ⟨k + 1, by omega, by omega, ?_⟩
        simp [deliverGo, hE, hr, hk3, List.replicate_succ]

/-- C3: for every payload and configured `max_retries`, delivery performs at
least 1 and at most `max_retries + 1` transmissions, and every transmitted frame
is the identical payload (so the sequence number embedded in it is not
incremented between retries of one message). -/
theorem C3_attempt_bound (maxRetries : Nat) (t : Nat → Option ℚ) (p : String) :
    ∃ k, 1 ≤ k ∧ k ≤ maxRetries + 1 ∧
      (deliver maxRetries t p).1 = List.replicate k p :=
  deliverGo_trace p t (maxRetries + 1) 0 (by omega)

/-! ## Logger theorems -/

theorem natDigsAux_length_le :
    ∀ fuel n k : Nat, n < 10 ^ k → (natDigsAux fuel n).length ≤ k := by
  intro fuel
  induction fuel with
  | zero => intro n k h; simp [natDigsAux]
  | succ f ih =>
    intro n k h
    match n with
    | 0 => simp [natDigsAux]
    | m + 1 =>
      cases k with
      | zero => norm_num at h
      | succ j =>
        have hdiv : (m + 1) / 10 < 10 ^ j := by
          rw [Nat.div_lt_iff_lt_mul (by norm_num)]
          calc m + 1 < 10 ^ (j + 1) := h
            _ = 10 ^ j * 10 := by ring
        have hrec := ih ((m + 1) / 10) j hdiv
        simp only [natDigsAux, List.length_cons]
        omega

theorem natRepr_length_le (n k : Nat) (hk : 1 ≤ k) (h : n < 10 ^ k) :
    (natRepr n).length ≤ k := by
  unfold natRepr
  split
  · simpa using hk
  · have hle := natDigsAux_length_le n n k h
    simpa [strmk_length, List.length_reverse] using hle

/-- C9: for every nonnegative tick count and bias, the rendered timestamp is
`HH:MM:SS.mmm` — the zero-padded hour, minute, second and millisecond components
joined by `:`, `:` and `.` — where minutes and seconds are below 60 and
milliseconds below 1000, hours/minutes/seconds render with at least 2
characters and milliseconds with exactly 3. -/
theorem C9_time_format (ticks bias : Nat) :
    (timeParts (ticks + bias)).minutes < 60 ∧
    (timeParts (ticks + bias)).seconds < 60 ∧
    (timeParts (ticks + bias)).milliseconds < 1000 ∧
    timeHMSmmm ticks bias =
      padLeft '0' 2 (natRepr (timeParts (ticks + bias)).hours) ++ ":"
        ++ padLeft '0' 2 (natRepr (timeParts (ticks + bias)).minutes) ++ ":"
        ++ padLeft '0' 2 (natRepr (timeParts (ticks + bias)).seconds) ++ "."
        ++ padLeft '0' 3 (natRepr (timeParts (ticks + bias)).milliseconds) ∧
    2 ≤ (padLeft '0' 2 (natRepr (timeParts (ticks + bias)).hours)).length ∧
    2 ≤ (padLeft '0' 2 (natRepr (timeParts (ticks + bias)).minutes)).length ∧
    2 ≤ (padLeft '0' 2 (natRepr (timeParts (ticks + bias)).seconds)).length ∧
    (padLeft '0' 3 (natRepr (timeParts (ticks + bias)).milliseconds)).length = 3 := by
  have hms : (timeParts (ticks + bias)).milliseconds < 1000 := by
    simp only [timeParts]
    omega
  refine ⟨?_, ?_, hms, rfl, ?_, ?_, ?_, ?_⟩
  · simp only [timeParts]
    omega
  · simp only [timeParts]
    omega
  · rw [padLeft_length]; omega
  · rw [padLeft_length]; omega
  · rw [padLeft_length]; omega
  · rw [padLeft_length]
    have h3 : (natRepr (timeParts (ticks + bias)).milliseconds).length ≤ 3 :=
      natRepr_length_le _ 3 (by omega) (by norm_num; omega)
    omega

/-- C10: every log line is `[<timestamp>]  [<TYPE>]<padding><details>` (plus a
newline) where `TYPE` is the upper-cased, stripped `line_type`, `details` is
stripped, and the padding follows `claimedPadding` — so the call never fails
even when the tag exceeds the padding budget; concretely, a `Warning` line gets
exactly 2 spaces of padding. -/
theorem C10_addLine_format :
    (∀ (ticks bias : Nat) (lt d : String), addLine ticks bias lt d =
      "[" ++ timeHMSmmm ticks bias ++ "]  " ++ ("[" ++ pyStrip (pyUpper lt) ++ "]")
        ++ claimedPadding ("[" ++ pyStrip (pyUpper lt) ++ "]").length
        ++ pyStrip d ++ "\n") ∧
    addLine 0 0 "Warning" "problem" = "[00:00:00.000]  [WARNING]  problem\n" := by
  constructor
  · intro ticks bias lt d
    have hpadstr :
        String.mk (List.replicate
          ((MAX_LOG_TYPE_LEN - (("[" ++ pyStrip (pyUpper lt) ++ "]").length : Int) + 4).toNat) ' ')
          = claimedPadding ("[" ++ pyStrip (pyUpper lt) ++ "]").length := by
      unfold claimedPadding MAX_LOG_TYPE_LEN
      split
      · congr 1
        congr 1
        omega
      · have h0 : (((7 : Nat) : Int) - (("[" ++ pyStrip (pyUpper lt) ++ "]").length : Int)
            + 4).toNat = 0 := by omega
        rw [h0]
        rfl
    simp only [addLine, typeTag]
    rw [hpadstr]
    apply str_ext
    simp [String.data_append, List.append_assoc]
  · decide

end TuiMonitor

